import Mathlib

/-!
Verification of the autocoin engine controller
(`app/engine/controller.py`, `app/engine/state.py`).

Shallow embedding conventions:
* Prices (Python `float`) are modelled as `Rat`; only order comparisons occur.
* Timestamps (`utc_now_iso`) are modelled by a monotone `Nat` clock carried in
  the controller state; every locked update stamps `updated_at` from the clock
  and advances it.  Event timestamps come from the same clock; the decimal
  formatting of prices inside log messages is abstracted away.
* The bounded `deque(maxlen=500)` of events is a `List` with explicit eviction.
* The background thread is modelled two ways: sequentially (the worker loop as
  a function consuming a list of fetch outcomes, `Except String Rat` standing
  for `float`-or-raised-exception), and as a small-step interleaving system
  (`MState`/`Step`) in which the lock-delimited blocks of the worker are atomic
  actions separated by a program counter.  The interleaving system tracks one
  worker at a time, matching the lifecycle in the spec ("one long-lived background
  worker per engine lifetime").
-/

/-- Model of `EngineStatus` from `app/engine/state.py`. -/
inductive EngineStatus where
  | IDLE
  | RUNNING
  | STOPPING
  | ERROR
deriving DecidableEq

/-- Model of `EngineEvent` from `app/engine/state.py`; `ts` is the abstract clock value. -/
structure EngineEvent where
  ts : Nat
  level : String
  message : String
deriving DecidableEq

/-- Model of `EngineSnapshot` from `app/engine/state.py`. -/
structure EngineSnapshot where
  status : EngineStatus
  market : String
  paper_mode : Bool
  iteration : Nat
  last_price : Option Rat
  last_signal : String
  last_error : Option String
  consecutive_failures : Nat
  max_consecutive_failures : Nat
  thread_alive : Bool
  updated_at : Nat
deriving DecidableEq

/-- Full controller state: the guarded snapshot, the event deque, the
`threading.Event` stop flag, the liveness of the actual worker thread
(`bool(self._thread and self._thread.is_alive())`), and the abstract clock. -/
structure CState where
  snap : EngineSnapshot
  events : List EngineEvent
  stopEvent : Bool
  threadAlive : Bool
  clock : Nat
deriving DecidableEq

/-- Model of `EngineController._make_signal`. -/
def make_signal (previous_price : Option Rat) (current_price : Rat) : String :=
  match previous_price with
  | none => "HOLD"
  | some p =>
      if current_price > p then "BUY"
      else if current_price < p then "SELL"
      else "HOLD"

/-- Append on the `deque(maxlen=500)` log: the storage effect of `_record`. -/
def recordEvent (es : List EngineEvent) (e : EngineEvent) : List EngineEvent :=
  let es' := es ++ [e]
  if es'.length > 500 then es'.drop (es'.length - 500) else es'

/-- Model of `EngineController._record`: stamp the event with the current clock. -/
def record (c : CState) (level message : String) : CState :=
  { c with events := recordEvent c.events ⟨c.clock, level, message⟩,
           clock := c.clock + 1 }

/-- Model of `EngineController._clone_snapshot_locked`: copy the snapshot and overwrite
`thread_alive` with the actual thread liveness. -/
def clone (c : CState) : EngineSnapshot :=
  { c.snap with thread_alive := c.threadAlive }

/-- The snapshot mutation in `start` (controller.py lines 38-43). -/
def startUpdate (s : EngineSnapshot) (now : Nat) : EngineSnapshot :=
  { s with status := EngineStatus.RUNNING, last_error := none,
           consecutive_failures := 0, thread_alive := true, updated_at := now }

/-- The snapshot mutation in the ERROR branch of `stop` (lines 53-56). -/
def stopErrorUpdate (s : EngineSnapshot) (now : Nat) : EngineSnapshot :=
  { s with status := EngineStatus.IDLE, thread_alive := false, updated_at := now }

/-- The snapshot mutation in the request phase of `stop` (lines 58-59). -/
def stopRequestUpdate (s : EngineSnapshot) (now : Nat) : EngineSnapshot :=
  { s with status := EngineStatus.STOPPING, updated_at := now }

/-- The snapshot mutation in the post-join phase of `stop` (lines 68-72):
refresh `thread_alive` from the actual thread, and finish the transition to
IDLE when the worker is gone. -/
def stopFinishUpdate (s : EngineSnapshot) (alive : Bool) (now : Nat) : EngineSnapshot :=
  { s with thread_alive := alive,
           status := if s.status = EngineStatus.STOPPING ∧ alive = false
                     then EngineStatus.IDLE else s.status,
           updated_at := now }

/-- The snapshot mutation in the non-RUNNING branch of `reset` (lines 81-85). -/
def resetUpdate (s : EngineSnapshot) (now : Nat) : EngineSnapshot :=
  { s with status := EngineStatus.IDLE, last_error := none,
           consecutive_failures := 0, thread_alive := false, updated_at := now }

/-- The snapshot mutation on a successful poll (`_run_loop` lines 111-117). -/
def successUpdate (s : EngineSnapshot) (price : Rat) (now : Nat) : EngineSnapshot :=
  { s with iteration := s.iteration + 1, last_price := some price,
           last_signal := make_signal s.last_price price,
           consecutive_failures := 0, updated_at := now }

/-- The snapshot mutation on a failed poll (`_run_loop` lines 120-124). -/
def failUpdate (s : EngineSnapshot) (e : String) (now : Nat) : EngineSnapshot :=
  { s with consecutive_failures := s.consecutive_failures + 1,
           last_error := some e, updated_at := now }

/-- The snapshot mutation when the failure threshold is reached
(`_run_loop` lines 129-132). -/
def fatalUpdate (s : EngineSnapshot) (now : Nat) : EngineSnapshot :=
  { s with status := EngineStatus.ERROR, thread_alive := false, updated_at := now }

/-- The snapshot mutation on clean worker exit (`_run_loop` lines 141-144). -/
def exitCleanUpdate (s : EngineSnapshot) (now : Nat) : EngineSnapshot :=
  { s with status := EngineStatus.IDLE, thread_alive := false, updated_at := now }

/-- Clean-exit sequence of the worker: locked IDLE update, final Info event,
thread termination. -/
def workerExit (c : CState) : CState :=
  let c1 : CState := { c with snap := exitCleanUpdate c.snap c.clock,
                              clock := c.clock + 1, threadAlive := false }
  record c1 "INFO" "Engine stopped"

/-- Model of `EngineController.__init__` (with `loop_interval_sec` irrelevant to the
modelled behaviour). -/
def initController (market : String) (paper_mode : Bool)
    (max_consecutive_failures : Nat) : CState :=
  let s : EngineSnapshot :=
    { status := EngineStatus.IDLE, market := market, paper_mode := paper_mode,
      iteration := 0, last_price := none, last_signal := "HOLD",
      last_error := none, consecutive_failures := 0,
      max_consecutive_failures := max_consecutive_failures,
      thread_alive := false, updated_at := 0 }
  let c : CState :=
    { snap := s, events := [], stopEvent := false, threadAlive := false, clock := 1 }
  record c "INFO" "Engine initialized"

/-- Model of `EngineController.start`. -/
def CState.start (c : CState) : CState × EngineSnapshot :=
  if c.snap.status = EngineStatus.RUNNING ∨ c.snap.status = EngineStatus.STOPPING then
    (c, clone c)
  else
    let c1 : CState := { c with stopEvent := false,
                                snap := startUpdate c.snap c.clock,
                                clock := c.clock + 1, threadAlive := true }
    let c2 := record c1 "INFO" "Engine started"
    (c2, clone c2)

/-- Model of `EngineController.stop`.  The RUNNING/STOPPING branch models the join
sequentially: the worker, which checks the stop signal at each loop top,
observes it and exits cleanly before the join returns. -/
def CState.stop (c : CState) : CState × EngineSnapshot :=
  if c.snap.status = EngineStatus.IDLE then (c, clone c)
  else if c.snap.status = EngineStatus.ERROR then
    let c1 : CState := { c with snap := stopErrorUpdate c.snap c.clock,
                                clock := c.clock + 1 }
    let c2 := record c1 "INFO" "Engine reset to IDLE from ERROR"
    (c2, clone c2)
  else
    let c1 : CState := { c with snap := stopRequestUpdate c.snap c.clock,
                                clock := c.clock + 1, stopEvent := true }
    let c2 := record c1 "INFO" "Stop requested"
    let c3 := if c2.threadAlive then workerExit c2 else c2
    let c4 : CState := { c3 with snap := stopFinishUpdate c3.snap c3.threadAlive c3.clock,
                                 clock := c3.clock + 1 }
    (c4, clone c4)

/-- Model of `EngineController.reset`. -/
def CState.reset (c : CState) : CState × EngineSnapshot :=
  if c.snap.status = EngineStatus.RUNNING then
    let c1 := record c "WARN" "Reset ignored while RUNNING. Use stop first."
    (c1, clone c1)
  else
    let c1 : CState := { c with snap := resetUpdate c.snap c.clock,
                                clock := c.clock + 1 }
    let c2 := record c1 "INFO" "Engine reset"
    (c2, clone c2)

/-- Model of `EngineController.status`. -/
def CState.status (c : CState) : CState × EngineSnapshot := (c, clone c)

/-- Model of `EngineController.recent_events`: `list(self._events)[-limit:]`.
For a positive `limit` the Python negative slice keeps the last `limit`
elements in stored (oldest-first) order; `[-0:]` is `[0:]`, the whole list. -/
def recent_events (es : List EngineEvent) (limit : Nat) : List EngineEvent :=
  if limit = 0 then es else es.drop (es.length - limit)

/-- One iteration body of `EngineController._run_loop` given the outcome of
`_fetch_price` (`Except.error` models a raised exception whose `str` is the
payload).  Returns the new state and whether the loop continues. -/
def loopStep (c : CState) (r : Except String Rat) : CState × Bool :=
  match r with
  | Except.ok price =>
      let c1 : CState := { c with snap := successUpdate c.snap price c.clock,
                                  clock := c.clock + 1 }
      let c2 := record c1 "INFO"
        ("tick=" ++ toString c1.snap.iteration ++ " signal=" ++ c1.snap.last_signal)
      (c2, true)
  | Except.error e =>
      let c1 : CState := { c with snap := failUpdate c.snap e c.clock,
                                  clock := c.clock + 1 }
      let failures := c1.snap.consecutive_failures
      let c2 := record c1 "ERROR"
        ("Loop error (" ++ toString failures ++ "/"
          ++ toString c1.snap.max_consecutive_failures ++ "): " ++ e)
      if failures ≥ c2.snap.max_consecutive_failures then
        let c3 : CState := { c2 with snap := fatalUpdate c2.snap c2.clock,
                                     clock := c2.clock + 1, threadAlive := false }
        let c4 := record c3 "ERROR" "Engine switched to ERROR due to repeated failures"
        (c4, false)
      else (c2, true)

/-- Model of `EngineController._run_loop` over a finite list of fetch outcomes:
check the stop signal at the loop top, run the body, stop when the body says
so.  Returns the final state and the unconsumed fetch outcomes. -/
def runLoop : CState → List (Except String Rat) → CState × List (Except String Rat)
  | c, [] => if c.stopEvent then (workerExit c, []) else (c, [])
  | c, r :: rs =>
      if c.stopEvent then (workerExit c, r :: rs)
      else
        let p := loopStep c r
        if p.2 then runLoop p.1 rs else (p.1, rs)

/-- The state right after constructing the controller and calling `start()`. -/
def startedState (market : String) (paper : Bool) (maxFail : Nat) : CState :=
  (CState.start (initController market paper maxFail)).1

/-- A concrete reachable ERROR state: threshold 1, one failed fetch. -/
def errState : CState :=
  (runLoop (startedState "KRW-BTC" true 1) [Except.error "boom"]).1

/-!
Interleaving model for the concurrency claims.  The worker thread has
lock-delimited blocks that become atomic transitions separated by a program
counter; the snapshot mutations are the same `...Update` functions used by
the sequential model.  The event log is omitted here (the claims over this
model mention only status, worker liveness and the stop signal), and the
timestamp argument of each update is an arbitrary transition parameter.
-/

/-- Program counter of the (single) worker thread. -/
inductive WorkerPC where
  | noThread
  | ready
  | checkFail
  | dyingError
  | dyingIdle
deriving DecidableEq

/-- Interleaving-model state: snapshot, stop signal, worker program counter. -/
structure MState where
  snap : EngineSnapshot
  stopEvent : Bool
  pc : WorkerPC
deriving DecidableEq

/-- Actual liveness of the worker thread
(`bool(self._thread and self._thread.is_alive())`). -/
def workerAlive (m : MState) : Bool :=
  match m.pc with
  | WorkerPC.noThread => false
  | _ => true

/-- The snapshot a caller observes: `_clone_snapshot_locked` overwrites
`thread_alive` with the actual thread liveness. -/
def observe (m : MState) : EngineSnapshot :=
  { m.snap with thread_alive := workerAlive m }

/-- Initial state after `__init__`: IDLE snapshot, stop signal unset, no
worker thread. -/
def mInit (market : String) (paper : Bool) (maxFail : Nat) : MState :=
  { snap := { status := EngineStatus.IDLE, market := market, paper_mode := paper,
              iteration := 0, last_price := none, last_signal := "HOLD",
              last_error := none, consecutive_failures := 0,
              max_consecutive_failures := maxFail, thread_alive := false,
              updated_at := 0 },
    stopEvent := false, pc := WorkerPC.noThread }

/-- One atomic transition of the controller or its worker.  Public operations
are the lock-delimited blocks of `start`/`stop`/`reset`; worker transitions
are the lock-delimited blocks of `_run_loop`, with `dyingError`/`dyingIdle`
marking the window between the terminal snapshot write and the actual
exit of the thread. -/
inductive Step : MState → MState → Prop
  /-- Transition for `start` when status is neither RUNNING nor STOPPING: clear the stop
  signal, update the snapshot, spawn the worker. -/
  | startOk (m : MState) (t : Nat)
      (h : m.snap.status ≠ EngineStatus.RUNNING ∧ m.snap.status ≠ EngineStatus.STOPPING) :
      Step m { snap := startUpdate m.snap t, stopEvent := false, pc := WorkerPC.ready }
  /-- Transition for `start` when RUNNING or STOPPING: no state change. -/
  | startNoop (m : MState)
      (h : m.snap.status = EngineStatus.RUNNING ∨ m.snap.status = EngineStatus.STOPPING) :
      Step m m
  /-- Transition for `stop` when IDLE: no state change. -/
  | stopIdle (m : MState) (h : m.snap.status = EngineStatus.IDLE) : Step m m
  /-- Transition for `stop` when ERROR: go directly to IDLE. -/
  | stopError (m : MState) (t : Nat) (h : m.snap.status = EngineStatus.ERROR) :
      Step m { snap := stopErrorUpdate m.snap t, stopEvent := m.stopEvent, pc := m.pc }
  /-- Request phase of `stop` when neither IDLE nor ERROR: set STOPPING and the
  stop signal. -/
  | stopRequest (m : MState) (t : Nat)
      (h : m.snap.status ≠ EngineStatus.IDLE ∧ m.snap.status ≠ EngineStatus.ERROR) :
      Step m { snap := stopRequestUpdate m.snap t, stopEvent := true, pc := m.pc }
  /-- Post-join phase of `stop`: refresh `thread_alive` from the actual thread
  and finish STOPPING → IDLE when the worker is gone. -/
  | stopFinish (m : MState) (t : Nat) :
      Step m { snap := stopFinishUpdate m.snap (workerAlive m) t,
               stopEvent := m.stopEvent, pc := m.pc }
  /-- Transition for `reset` when not RUNNING (when RUNNING it is a no-op on the state). -/
  | resetOp (m : MState) (t : Nat) (h : m.snap.status ≠ EngineStatus.RUNNING) :
      Step m { snap := resetUpdate m.snap t, stopEvent := m.stopEvent, pc := m.pc }
  /-- Worker at loop top observes the stop signal: locked IDLE update, then
  the thread is about to exit. -/
  | wObserveStop (m : MState) (t : Nat)
      (h : m.pc = WorkerPC.ready ∧ m.stopEvent = true) :
      Step m { snap := exitCleanUpdate m.snap t, stopEvent := m.stopEvent,
               pc := WorkerPC.dyingIdle }
  /-- Worker completes a successful poll of price `p`. -/
  | wTickOk (m : MState) (t : Nat) (p : Rat)
      (h : m.pc = WorkerPC.ready ∧ m.stopEvent = false) :
      Step m { snap := successUpdate m.snap p t, stopEvent := m.stopEvent,
               pc := WorkerPC.ready }
  /-- Worker records a fetch failure `e`, then goes on to the threshold
  check. -/
  | wFailIncr (m : MState) (t : Nat) (e : String)
      (h : m.pc = WorkerPC.ready ∧ m.stopEvent = false) :
      Step m { snap := failUpdate m.snap e t, stopEvent := m.stopEvent,
               pc := WorkerPC.checkFail }
  /-- Threshold reached: terminal ERROR update; the thread is about to exit. -/
  | wFatal (m : MState) (t : Nat)
      (h : m.pc = WorkerPC.checkFail ∧
           m.snap.consecutive_failures ≥ m.snap.max_consecutive_failures) :
      Step m { snap := fatalUpdate m.snap t, stopEvent := m.stopEvent,
               pc := WorkerPC.dyingError }
  /-- Below threshold: back off and continue the loop. -/
  | wRetry (m : MState)
      (h : m.pc = WorkerPC.checkFail ∧
           m.snap.consecutive_failures < m.snap.max_consecutive_failures) :
      Step m { m with pc := WorkerPC.ready }
  /-- The worker thread actually exits. -/
  | wDie (m : MState)
      (h : m.pc = WorkerPC.dyingError ∨ m.pc = WorkerPC.dyingIdle) :
      Step m { m with pc := WorkerPC.noThread }

/-- Reachability from an initial state by any interleaving of transitions. -/
inductive Reach (m0 : MState) : MState → Prop
  | refl : Reach m0 m0
  | step {m m' : MState} : Reach m0 m → Step m m' → Reach m0 m'

/-- The inductive invariant tying status, worker program counter and stop
signal together. -/
def CtrlInv (m : MState) : Prop :=
  (m.snap.status = EngineStatus.RUNNING →
     m.pc = WorkerPC.ready ∨ m.pc = WorkerPC.checkFail) ∧
  (m.snap.status = EngineStatus.STOPPING →
     m.pc = WorkerPC.ready ∨ m.pc = WorkerPC.checkFail) ∧
  (m.snap.status = EngineStatus.STOPPING → m.stopEvent = true) ∧
  (m.snap.status = EngineStatus.ERROR →
     m.pc = WorkerPC.dyingError ∨ m.pc = WorkerPC.noThread) ∧
  (m.snap.status = EngineStatus.IDLE →
     (m.pc = WorkerPC.ready ∨ m.pc = WorkerPC.checkFail) → m.stopEvent = true)

lemma inv_init (market : String) (paper : Bool) (maxFail : Nat) :
    CtrlInv (mInit market paper maxFail) := by
  refine ⟨?_, ?_, ?_, ?_, ?_⟩ <;> simp [mInit, CtrlInv]

lemma inv_step {m m' : MState} (hInv : CtrlInv m) (hStep : Step m m') : CtrlInv m' := by
  obtain ⟨⟨st, mk, pm, it, lp, ls, le, cf, mf, ta, ua⟩, se, pc⟩ := m
  cases hStep <;> cases st <;> cases pc <;> cases se <;>
    simp_all [CtrlInv, startUpdate, stopErrorUpdate, stopRequestUpdate,
      stopFinishUpdate, resetUpdate, successUpdate, failUpdate, fatalUpdate,
      exitCleanUpdate, workerAlive]

lemma inv_reach {market : String} {paper : Bool} {maxFail : Nat} {m : MState}
    (h : Reach (mInit market paper maxFail) m) : CtrlInv m := by
  induction h with
  | refl => exact inv_init market paper maxFail
  | step _ hs ih => exact inv_step ih hs

/-! Helper lemmas about the event log and the worker loop. -/

lemma recordEvent_getLast? (es : List EngineEvent) (e : EngineEvent) :
    (recordEvent es e).getLast? = some e := by
  simp only [recordEvent]
  split
  · rw [List.drop_append_of_le_length
      (by simp only [List.length_append, List.length_singleton]; omega)]
    simp
  · simp

lemma recordEvent_length_le (es : List EngineEvent) (e : EngineEvent)
    (h : es.length ≤ 500) : (recordEvent es e).length ≤ 500 := by
  simp only [recordEvent]
  split
  · rename_i hgt
    simp only [List.length_append, List.length_singleton] at hgt ⊢
    simp only [List.length_drop, List.length_append, List.length_singleton]
    omega
  · rename_i hgt
    simp only [List.length_append, List.length_singleton] at hgt ⊢
    omega

lemma runLoop_cons_cont {c : CState} {r : Except String Rat}
    {rs : List (Except String Rat)}
    (hse : c.stopEvent = false) (hcont : (loopStep c r).2 = true) :
    runLoop c (r :: rs) = runLoop (loopStep c r).1 rs := by
  simp only [runLoop, hse, Bool.false_eq_true, if_false, hcont, if_true]

lemma runLoop_cons_stop {c : CState} {r : Except String Rat}
    {rs : List (Except String Rat)}
    (hse : c.stopEvent = false) (hcont : (loopStep c r).2 = false) :
    runLoop c (r :: rs) = ((loopStep c r).1, rs) := by
  simp only [runLoop, hse, Bool.false_eq_true, if_false, hcont]

/-- Fields of the failure branch of the loop body that do not depend on
whether the threshold is reached. -/
lemma loopStep_error_proj (c : CState) (e : String) :
    (loopStep c (Except.error e)).1.snap.consecutive_failures
        = c.snap.consecutive_failures + 1 ∧
    (loopStep c (Except.error e)).1.snap.max_consecutive_failures
        = c.snap.max_consecutive_failures ∧
    (loopStep c (Except.error e)).1.stopEvent = c.stopEvent ∧
    (loopStep c (Except.error e)).1.snap.iteration = c.snap.iteration ∧
    (loopStep c (Except.error e)).1.snap.last_error = some e := by
  simp only [loopStep]
  split <;> simp [record, failUpdate, fatalUpdate]

lemma loopStep_error_cont (c : CState) (e : String)
    (h : c.snap.consecutive_failures + 1 < c.snap.max_consecutive_failures) :
    (loopStep c (Except.error e)).2 = true := by
  simp only [loopStep]
  rw [if_neg (by simp [record, failUpdate]; omega)]

lemma loopStep_error_fatal (c : CState) (e : String)
    (h : c.snap.consecutive_failures + 1 ≥ c.snap.max_consecutive_failures) :
    (loopStep c (Except.error e)).2 = false ∧
    (loopStep c (Except.error e)).1.snap.status = EngineStatus.ERROR ∧
    (loopStep c (Except.error e)).1.snap.thread_alive = false ∧
    (loopStep c (Except.error e)).1.threadAlive = false ∧
    (∃ t, (loopStep c (Except.error e)).1.events.getLast?
        = some ⟨t, "ERROR", "Engine switched to ERROR due to repeated failures"⟩) := by
  simp only [loopStep]
  rw [if_pos (by simp [record, failUpdate]; omega)]
  refine ⟨rfl, rfl, rfl, rfl, ?_⟩
  exact ⟨_, recordEvent_getLast? _ _⟩

/-- Behaviour of the worker loop when every fetch fails: the failure counter
climbs to the threshold, the engine ends in ERROR with the last failure
recorded, the thread exits, the terminal Error event is the last event, and
exactly `max - initial` fetch outcomes are consumed. -/
lemma runLoop_allFail :
    ∀ (errs : List String) (c : CState),
      c.stopEvent = false →
      c.snap.consecutive_failures < c.snap.max_consecutive_failures →
      c.snap.max_consecutive_failures ≤ c.snap.consecutive_failures + errs.length →
      (runLoop c (errs.map Except.error)).1.snap.status = EngineStatus.ERROR ∧
      (runLoop c (errs.map Except.error)).1.snap.consecutive_failures
          = c.snap.max_consecutive_failures ∧
      (∃ e ∈ errs, (runLoop c (errs.map Except.error)).1.snap.last_error = some e) ∧
      (runLoop c (errs.map Except.error)).1.snap.thread_alive = false ∧
      (runLoop c (errs.map Except.error)).1.threadAlive = false ∧
      (∃ t, (runLoop c (errs.map Except.error)).1.events.getLast?
          = some ⟨t, "ERROR", "Engine switched to ERROR due to repeated failures"⟩) ∧
      (runLoop c (errs.map Except.error)).2
          = (errs.map Except.error).drop
              (c.snap.max_consecutive_failures - c.snap.consecutive_failures) ∧
      (runLoop c (errs.map Except.error)).1.snap.iteration = c.snap.iteration ∧
      (runLoop c (errs.map Except.error)).1.snap.max_consecutive_failures
          = c.snap.max_consecutive_failures := by
  intro errs
  induction errs with
  | nil =>
      intro c _ hlt hge
      simp only [List.length_nil] at hge
      omega
  | cons e rest ih =>
      intro c hse hlt hge
      obtain ⟨hf, hm, hs, hit, hle⟩ := loopStep_error_proj c e
      by_cases hth : c.snap.consecutive_failures + 1
          ≥ c.snap.max_consecutive_failures
      · have hmax : c.snap.max_consecutive_failures
            = c.snap.consecutive_failures + 1 := by omega
        obtain ⟨hstop, herr, hta, htl, hev⟩ := loopStep_error_fatal c e hth
        rw [List.map_cons, runLoop_cons_stop hse hstop]
        refine ⟨herr, ?_, ⟨e, List.mem_cons_self e rest, hle⟩, hta, htl, hev, ?_, hit, ?_⟩
        · rw [hf, hmax]
        · rw [hmax]
          simp
        · rw [hm]
      · have hth' : c.snap.consecutive_failures + 1
            < c.snap.max_consecutive_failures := by omega
        rw [List.map_cons, runLoop_cons_cont hse (loopStep_error_cont c e hth')]
        have hrec := ih (loopStep c (Except.error e)).1
          (by rw [hs, hse]) (by rw [hf, hm]; omega)
          (by rw [hf, hm]; simp only [List.length_cons] at hge; omega)
        obtain ⟨r1, r2, ⟨e', he', hr3⟩, r4, r5, r6, r7, r8, r9⟩ := hrec
        refine ⟨r1, ?_, ⟨e', List.mem_cons_of_mem e he', hr3⟩, r4, r5, r6, ?_, ?_, ?_⟩
        · rw [r2, hm]
        · rw [r7, hf, hm]
          have hd : c.snap.max_consecutive_failures - c.snap.consecutive_failures
              = (c.snap.max_consecutive_failures
                  - (c.snap.consecutive_failures + 1)) + 1 := by omega
          rw [hd, List.drop_succ_cons]
        · rw [r8, hit]
        · rw [r9, hm]

lemma startedState_proj (market : String) (paper : Bool) (maxFail : Nat) :
    (startedState market paper maxFail).stopEvent = false ∧
    (startedState market paper maxFail).snap.consecutive_failures = 0 ∧
    (startedState market paper maxFail).snap.max_consecutive_failures = maxFail ∧
    (startedState market paper maxFail).snap.status = EngineStatus.RUNNING ∧
    (startedState market paper maxFail).snap.last_price = none ∧
    (startedState market paper maxFail).snap.iteration = 0 :=
  ⟨rfl, rfl, rfl, rfl, rfl, rfl⟩

/-- Claim C1: with a PriceSource that always fails, each failed fetch
increments `consecutiveFailures` by exactly 1, and as soon as the counter
reaches `maxConsecutiveFailures` the worker sets status to Error, clears
worker-alive, appends the terminal Error event as the last event, and exits
immediately, leaving the remaining fetches unconsumed; the final snapshot has
status Error, `consecutiveFailures ≥ maxConsecutiveFailures` and a non-empty
`lastError`. -/
theorem C1_worker_fatal_on_repeated_failures
    (market : String) (paper : Bool) (maxFail : Nat) (errs : List String)
    (h1 : 1 ≤ maxFail) (h2 : maxFail ≤ errs.length)
    (h3 : ∀ e ∈ errs, e ≠ "") :
    (∀ (c : CState) (e : String),
        (loopStep c (Except.error e)).1.snap.consecutive_failures
          = c.snap.consecutive_failures + 1) ∧
    (runLoop (startedState market paper maxFail) (errs.map Except.error)).1.snap.status
        = EngineStatus.ERROR ∧
    maxFail ≤ (runLoop (startedState market paper maxFail)
        (errs.map Except.error)).1.snap.consecutive_failures ∧
    (∃ e, (runLoop (startedState market paper maxFail)
        (errs.map Except.error)).1.snap.last_error = some e ∧ e ≠ "") ∧
    (runLoop (startedState market paper maxFail)
        (errs.map Except.error)).1.snap.thread_alive = false ∧
    (runLoop (startedState market paper maxFail)
        (errs.map Except.error)).1.threadAlive = false ∧
    (∃ t, (runLoop (startedState market paper maxFail)
        (errs.map Except.error)).1.events.getLast?
          = some ⟨t, "ERROR", "Engine switched to ERROR due to repeated failures"⟩) ∧
    (runLoop (startedState market paper maxFail) (errs.map Except.error)).2
        = (errs.map Except.error).drop maxFail := by
  obtain ⟨hse, hcf, hmf, -, -, -⟩ := startedState_proj market paper maxFail
  have hall := runLoop_allFail errs (startedState market paper maxFail) hse
    (by rw [hcf, hmf]; omega) (by rw [hcf, hmf]; omega)
  obtain ⟨a1, a2, ⟨e, hee, he⟩, a4, a5, a6, a7, a8, a9⟩ := hall
  refine ⟨?_, a1, ?_, ⟨e, he, h3 e hee⟩, a4, a5, a6, ?_⟩
  · intro c e'
    exact (loopStep_error_proj c e').1
  · rw [a2, hmf]
  · rw [a7, hcf, hmf]
    simp

/-- Witness for C1 at threshold 1 and the single failing fetch "boom". -/
theorem C1_witness :
    (runLoop (startedState "KRW-BTC" true 1)
        (["boom"].map Except.error)).1.snap.status = EngineStatus.ERROR :=
  (C1_worker_fatal_on_repeated_failures "KRW-BTC" true 1 ["boom"]
    (by decide) (by decide) (by decide)).2.1

/-- Claim C2 counterexample: after construction and `start()` the log holds
two events; `recent_events` with limit 0 returns both (not an empty
sequence), and with limit 2 it returns them oldest first (its head is the
oldest stored event, not the most recent one). -/
theorem C2_counterexample :
    recent_events (startedState "KRW-BTC" true 3).events 0 ≠ [] ∧
    (recent_events (startedState "KRW-BTC" true 3).events 2).head?
        = (startedState "KRW-BTC" true 3).events.head? ∧
    (startedState "KRW-BTC" true 3).events.head?
        ≠ (startedState "KRW-BTC" true 3).events.getLast? := by
  decide

/-- Claim C2 (amended): for every stored log of at most the capacity 500 and
every positive limit, `recent_events` returns the suffix of the most recent
`min(limit, size)` events in stored chronological order (oldest of those
first, not most recent first), so its length is at most the limit and at most
500; `recent_events 0` returns the entire stored log; and appending through
`recordEvent` keeps the log within capacity. -/
theorem C2_recent_events_amended (es : List EngineEvent) (limit : Nat)
    (hcap : es.length ≤ 500) :
    (0 < limit →
        recent_events es limit = es.drop (es.length - limit) ∧
        (recent_events es limit).length ≤ limit) ∧
    recent_events es 0 = es ∧
    (recent_events es limit).length ≤ 500 ∧
    (recent_events es limit).IsSuffix es ∧
    (∀ e, (recordEvent es e).length ≤ 500) := by
  refine ⟨?_, ?_, ?_, ?_, fun e => recordEvent_length_le es e hcap⟩
  · intro hpos
    constructor
    · simp [recent_events, Nat.pos_iff_ne_zero.mp hpos]
    · simp only [recent_events, if_neg (Nat.pos_iff_ne_zero.mp hpos),
        List.length_drop]
      omega
  · simp [recent_events]
  · by_cases h0 : limit = 0
    · simpa [recent_events, h0] using hcap
    · simp only [recent_events, if_neg h0, List.length_drop]
      omega
  · by_cases h0 : limit = 0
    · simp [recent_events, h0]
    · simp only [recent_events, if_neg h0]
      exact List.drop_suffix _ _

/-- Witness for the amended C2 at the concrete two-event log and limit 1. -/
theorem C2_witness :
    (recent_events (startedState "KRW-BTC" true 3).events 1).length ≤ 1 :=
  ((C2_recent_events_amended (startedState "KRW-BTC" true 3).events 1
    (by decide)).1 (by decide)).2

/-- Claim C3: the signal function returns Hold with no previous price, Buy on
a rise, Sell on a fall, Hold when unchanged; and on the fetched price
sequence 100, 101, 100, 100 the successive `lastSignal` values are HOLD,
BUY, SELL, HOLD. -/
theorem C3_signal_function :
    (∀ c : Rat, make_signal none c = "HOLD") ∧
    (∀ p c : Rat, p < c → make_signal (some p) c = "BUY") ∧
    (∀ p c : Rat, c < p → make_signal (some p) c = "SELL") ∧
    (∀ p : Rat, make_signal (some p) p = "HOLD") ∧
    ((loopStep (startedState "KRW-BTC" true 3)
        (Except.ok 100)).1.snap.last_signal = "HOLD" ∧
     (loopStep (loopStep (startedState "KRW-BTC" true 3) (Except.ok 100)).1
        (Except.ok 101)).1.snap.last_signal = "BUY" ∧
     (loopStep (loopStep (loopStep (startedState "KRW-BTC" true 3)
        (Except.ok 100)).1 (Except.ok 101)).1
        (Except.ok 100)).1.snap.last_signal = "SELL" ∧
     (loopStep (loopStep (loopStep (loopStep (startedState "KRW-BTC" true 3)
        (Except.ok 100)).1 (Except.ok 101)).1 (Except.ok 100)).1
        (Except.ok 100)).1.snap.last_signal = "HOLD") := by
  refine ⟨fun c => rfl, ?_, ?_, ?_, by decide⟩
  · intro p c h
    simp [make_signal, h]
  · intro p c h
    have h1 : ¬ (c > p) := not_lt.mpr h.le
    simp [make_signal, h1, h]
  · intro p
    simp [make_signal]

/-- Witness for C3: a strictly rising price yields BUY. -/
theorem C3_witness : make_signal (some 100) 101 = "BUY" :=
  C3_signal_function.2.1 100 101 (by norm_num)

/-- Claim C4: `start()` on a RUNNING or STOPPING controller is a perfect
no-op: the whole controller state (snapshot fields, failure counter,
iteration, event log, stop signal, worker thread) is unchanged and the
returned value is the current snapshot. -/
theorem C4_start_noop_when_active (c : CState)
    (h : c.snap.status = EngineStatus.RUNNING ∨ c.snap.status = EngineStatus.STOPPING) :
    CState.start c = (c, clone c) := by
  simp only [CState.start, if_pos h]

/-- Witness for C4 at the concrete freshly started (RUNNING) controller. -/
theorem C4_witness :
    CState.start (startedState "KRW-BTC" true 3)
      = (startedState "KRW-BTC" true 3, clone (startedState "KRW-BTC" true 3)) :=
  C4_start_noop_when_active (startedState "KRW-BTC" true 3) (Or.inl rfl)

/-- Claim C5: `stop()` on an ERROR controller transitions directly to IDLE,
clears the worker-alive flag, appends an Info event as the last event, and
returns the resulting snapshot — no prior `reset()` is required. -/
theorem C5_stop_from_error (c : CState) (h : c.snap.status = EngineStatus.ERROR) :
    (CState.stop c).1.snap.status = EngineStatus.IDLE ∧
    (CState.stop c).1.snap.thread_alive = false ∧
    (∃ t, (CState.stop c).1.events.getLast?
        = some ⟨t, "INFO", "Engine reset to IDLE from ERROR"⟩) ∧
    (CState.stop c).2 = clone (CState.stop c).1 := by
  have h1 : c.snap.status ≠ EngineStatus.IDLE := by rw [h]; intro hco; cases hco
  refine ⟨?_, ?_, ?_, ?_⟩ <;> simp only [CState.stop, if_neg h1, if_pos h] <;>
    first
      | rfl
      | exact ⟨_, recordEvent_getLast? _ _⟩

/-- Witness for C5 at the concrete reachable ERROR state. -/
theorem C5_witness : (CState.stop errState).1.snap.status = EngineStatus.IDLE :=
  (C5_stop_from_error errState (by decide)).1

/-- Claim C6 counterexample: at the concrete reachable ERROR state with
`consecutiveFailures = 1`, `stop()` leaves ERROR (its result is no longer
ERROR) yet `consecutiveFailures` is still 1, not 0. -/
theorem C6_counterexample :
    errState.snap.status = EngineStatus.ERROR ∧
    (CState.stop errState).1.snap.status ≠ EngineStatus.ERROR ∧
    (CState.stop errState).1.snap.consecutive_failures = 1 ∧
    ¬ (CState.stop errState).1.snap.consecutive_failures = 0 := by
  decide

/-- Claim C6 (amended): leaving ERROR via `start()` or `reset()` resets
`consecutiveFailures` to 0, but leaving ERROR via `stop()` goes to IDLE with
`consecutiveFailures` unchanged; `status()` does not change the state at
all. -/
theorem C6_failures_on_error_exit (c : CState)
    (h : c.snap.status = EngineStatus.ERROR) :
    ((CState.start c).1.snap.status = EngineStatus.RUNNING ∧
     (CState.start c).1.snap.consecutive_failures = 0) ∧
    ((CState.reset c).1.snap.status = EngineStatus.IDLE ∧
     (CState.reset c).1.snap.consecutive_failures = 0) ∧
    ((CState.stop c).1.snap.status = EngineStatus.IDLE ∧
     (CState.stop c).1.snap.consecutive_failures = c.snap.consecutive_failures) ∧
    (CState.status c).1 = c := by
  have hnr : c.snap.status ≠ EngineStatus.RUNNING := by rw [h]; intro hco; cases hco
  have hni : c.snap.status ≠ EngineStatus.IDLE := by rw [h]; intro hco; cases hco
  have hns : ¬ (c.snap.status = EngineStatus.RUNNING
      ∨ c.snap.status = EngineStatus.STOPPING) := by
    rw [h]; rintro (hco | hco) <;> cases hco
  refine ⟨?_, ?_, ?_, rfl⟩
  · simp only [CState.start, if_neg hns]
    exact ⟨rfl, rfl⟩
  · simp only [CState.reset, if_neg hnr]
    exact ⟨rfl, rfl⟩
  · simp only [CState.stop, if_neg hni, if_pos h]
    exact ⟨rfl, rfl⟩

/-- Witness for the amended C6 at the concrete reachable ERROR state. -/
theorem C6_witness :
    (CState.reset errState).1.snap.consecutive_failures = 0 :=
  (C6_failures_on_error_exit errState (by decide)).2.1.2

/-- Claim C7: `reset()` on a RUNNING controller refuses: every snapshot field
keeps its prior value (status still RUNNING, `consecutiveFailures`
untouched), a Warn event is appended as the last event, and the unchanged
snapshot is returned. -/
theorem C7_reset_refused_while_running (c : CState)
    (h : c.snap.status = EngineStatus.RUNNING) :
    (CState.reset c).1.snap = c.snap ∧
    (CState.reset c).1.stopEvent = c.stopEvent ∧
    (CState.reset c).1.threadAlive = c.threadAlive ∧
    (∃ t, (CState.reset c).1.events.getLast?
        = some ⟨t, "WARN", "Reset ignored while RUNNING. Use stop first."⟩) ∧
    (CState.reset c).2 = clone c := by
  simp only [CState.reset, if_pos h]
  exact ⟨rfl, rfl, rfl, ⟨_, recordEvent_getLast? _ _⟩, rfl⟩

/-- Witness for C7 at the concrete freshly started (RUNNING) controller. -/
theorem C7_witness :
    (CState.reset (startedState "KRW-BTC" true 3)).1.snap
      = (startedState "KRW-BTC" true 3).snap :=
  (C7_reset_refused_while_running (startedState "KRW-BTC" true 3) rfl).1

/-- Claim C9: `reset()` on a non-RUNNING controller modifies only status,
lastError, consecutiveFailures, worker-alive and updatedAt — iteration,
lastPrice, lastSignal, market, paperMode and maxConsecutiveFailures
survive — and no public operation ever changes (in particular decreases or
resets) the iteration counter. -/
theorem C9_reset_frame :
    (∀ c : CState, c.snap.status ≠ EngineStatus.RUNNING →
        (CState.reset c).1.snap.iteration = c.snap.iteration ∧
        (CState.reset c).1.snap.last_price = c.snap.last_price ∧
        (CState.reset c).1.snap.last_signal = c.snap.last_signal ∧
        (CState.reset c).1.snap.market = c.snap.market ∧
        (CState.reset c).1.snap.paper_mode = c.snap.paper_mode ∧
        (CState.reset c).1.snap.max_consecutive_failures
            = c.snap.max_consecutive_failures ∧
        (CState.reset c).1.snap.status = EngineStatus.IDLE ∧
        (CState.reset c).1.snap.last_error = none ∧
        (CState.reset c).1.snap.consecutive_failures = 0 ∧
        (CState.reset c).1.snap.thread_alive = false) ∧
    (∀ c : CState, (CState.start c).1.snap.iteration = c.snap.iteration) ∧
    (∀ c : CState, (CState.stop c).1.snap.iteration = c.snap.iteration) ∧
    (∀ c : CState, (CState.reset c).1.snap.iteration = c.snap.iteration) ∧
    (∀ c : CState, (CState.status c).1.snap.iteration = c.snap.iteration) := by
  refine ⟨?_, ?_, ?_, ?_, fun c => rfl⟩
  · intro c h
    simp only [CState.reset, if_neg h]
    exact ⟨rfl, rfl, rfl, rfl, rfl, rfl, rfl, rfl, rfl, rfl⟩
  · intro c
    simp only [CState.start]
    split <;> rfl
  · intro c
    simp only [CState.stop]
    split
    · rfl
    split
    · rfl
    simp only [workerExit, record, stopRequestUpdate, stopFinishUpdate,
      exitCleanUpdate]
    split <;> rfl
  · intro c
    simp only [CState.reset]
    split <;> rfl

/-- Witness for C9 at the concrete freshly constructed (IDLE) controller. -/
theorem C9_witness :
    (CState.reset (initController "KRW-BTC" true 3)).1.snap.iteration
      = (initController "KRW-BTC" true 3).snap.iteration :=
  (C9_reset_frame.1 (initController "KRW-BTC" true 3) (by decide)).1

/-- Claim C10: a successful poll resets `consecutiveFailures` to 0 without
clearing `lastError` (and without touching status); `stop()` from ERROR and
from IDLE also leaves `lastError` in place; only `start()` and `reset()` set
it to None.  In the concrete run failure-then-success the snapshot keeps the
stale "boom" message while RUNNING with zero failures. -/
theorem C10_stale_last_error :
    (∀ (c : CState) (p : Rat),
        (loopStep c (Except.ok p)).1.snap.consecutive_failures = 0 ∧
        (loopStep c (Except.ok p)).1.snap.last_error = c.snap.last_error ∧
        (loopStep c (Except.ok p)).1.snap.status = c.snap.status) ∧
    (∀ c : CState, c.snap.status = EngineStatus.ERROR →
        (CState.stop c).1.snap.last_error = c.snap.last_error) ∧
    (∀ c : CState, c.snap.status = EngineStatus.IDLE →
        (CState.stop c).1.snap.last_error = c.snap.last_error) ∧
    (∀ c : CState, c.snap.status ≠ EngineStatus.RUNNING
        ∧ c.snap.status ≠ EngineStatus.STOPPING →
        (CState.start c).1.snap.last_error = none) ∧
    (∀ c : CState, c.snap.status ≠ EngineStatus.RUNNING →
        (CState.reset c).1.snap.last_error = none) ∧
    ((runLoop (startedState "KRW-BTC" true 3)
        [Except.error "boom", Except.ok 100]).1.snap.consecutive_failures = 0 ∧
     (runLoop (startedState "KRW-BTC" true 3)
        [Except.error "boom", Except.ok 100]).1.snap.last_error = some "boom" ∧
     (runLoop (startedState "KRW-BTC" true 3)
        [Except.error "boom", Except.ok 100]).1.snap.status
        = EngineStatus.RUNNING) := by
  refine ⟨fun c p => ⟨rfl, rfl, rfl⟩, ?_, ?_, ?_, ?_, by decide⟩
  · intro c h
    have h1 : c.snap.status ≠ EngineStatus.IDLE := by rw [h]; intro hco; cases hco
    simp only [CState.stop, if_neg h1, if_pos h]
    rfl
  · intro c h
    simp only [CState.stop, if_pos h]
  · intro c h
    have hns : ¬ (c.snap.status = EngineStatus.RUNNING
        ∨ c.snap.status = EngineStatus.STOPPING) := by
      rintro (hco | hco)
      · exact h.1 hco
      · exact h.2 hco
    simp only [CState.start, if_neg hns]
    rfl
  · intro c h
    simp only [CState.reset, if_neg h]
    rfl

/-- Witness for C10: at the concrete ERROR state, `stop()` keeps the stale
error message. -/
theorem C10_witness :
    (CState.stop errState).1.snap.last_error = errState.snap.last_error :=
  C10_stale_last_error.2.1 errState (by decide)

/-- Claim C8 counterexample: with threshold 1, the interleaving
start → failure → threshold-reached is reachable, and in the resulting state
the snapshot observable by a caller has status ERROR while the worker thread
is still alive (it has not yet returned from `_run_loop`), so
`workerAlive = true` with status ∉ {Running, Stopping}. -/
theorem C8_counterexample :
    ∃ m : MState, Reach (mInit "KRW-BTC" true 1) m ∧
      m.snap.status = EngineStatus.ERROR ∧ workerAlive m = true ∧
      (observe m).status = EngineStatus.ERROR ∧
      (observe m).thread_alive = true := by
  refine ⟨_, Reach.step (Reach.step (Reach.step Reach.refl
      (Step.startOk (mInit "KRW-BTC" true 1) 1 (by decide)))
      (Step.wFailIncr _ 2 "boom" (by decide)))
      (Step.wFatal _ 3 (by decide)), ?_, ?_, ?_, ?_⟩ <;> decide

/-- Claim C8 (amended): in every reachable state, status Running or Stopping
implies the worker thread is alive; conversely a live worker implies status
Running or Stopping except during the shutdown window — status Error with
the worker past its terminal write but not yet exited, or status Idle with
the worker either past its terminal write or still looping with the
cancellation signal already set (so it exits at its next loop-top check). -/
theorem C8_worker_alive_amended (market : String) (paper : Bool) (maxFail : Nat)
    (m : MState) (h : Reach (mInit market paper maxFail) m) :
    ((m.snap.status = EngineStatus.RUNNING ∨ m.snap.status = EngineStatus.STOPPING) →
        workerAlive m = true) ∧
    (workerAlive m = true →
        m.snap.status = EngineStatus.RUNNING ∨ m.snap.status = EngineStatus.STOPPING ∨
        (m.snap.status = EngineStatus.ERROR ∧ m.pc = WorkerPC.dyingError) ∨
        (m.snap.status = EngineStatus.IDLE ∧
          (m.pc = WorkerPC.dyingIdle ∨ m.pc = WorkerPC.dyingError ∨
            m.stopEvent = true))) := by
  obtain ⟨h1, h2, h3, h4, h5⟩ := inv_reach h
  constructor
  · rintro (hs | hs)
    · rcases h1 hs with hp | hp <;> simp [workerAlive, hp]
    · rcases h2 hs with hp | hp <;> simp [workerAlive, hp]
  · intro ha
    cases hst : m.snap.status with
    | RUNNING => exact Or.inl rfl
    | STOPPING => exact Or.inr (Or.inl rfl)
    | ERROR =>
        rcases h4 hst with hp | hp
        · exact Or.inr (Or.inr (Or.inl ⟨rfl, hp⟩))
        · rw [workerAlive, hp] at ha
          cases ha
    | IDLE =>
        refine Or.inr (Or.inr (Or.inr ⟨rfl, ?_⟩))
        cases hpc : m.pc with
        | noThread => rw [workerAlive, hpc] at ha; cases ha
        | ready => exact Or.inr (Or.inr (h5 hst (Or.inl hpc)))
        | checkFail => exact Or.inr (Or.inr (h5 hst (Or.inr hpc)))
        | dyingIdle => exact Or.inl rfl
        | dyingError => exact Or.inr (Or.inl rfl)

/-- Witness for the amended C8 at the initial state, reachable by the empty
interleaving. -/
theorem C8_witness :
    (((mInit "KRW-BTC" true 3).snap.status = EngineStatus.RUNNING ∨
      (mInit "KRW-BTC" true 3).snap.status = EngineStatus.STOPPING) →
        workerAlive (mInit "KRW-BTC" true 3) = true) ∧
    (workerAlive (mInit "KRW-BTC" true 3) = true →
        (mInit "KRW-BTC" true 3).snap.status = EngineStatus.RUNNING ∨
        (mInit "KRW-BTC" true 3).snap.status = EngineStatus.STOPPING ∨
        ((mInit "KRW-BTC" true 3).snap.status = EngineStatus.ERROR ∧
          (mInit "KRW-BTC" true 3).pc = WorkerPC.dyingError) ∨
        ((mInit "KRW-BTC" true 3).snap.status = EngineStatus.IDLE ∧
          ((mInit "KRW-BTC" true 3).pc = WorkerPC.dyingIdle ∨
            (mInit "KRW-BTC" true 3).pc = WorkerPC.dyingError ∨
            (mInit "KRW-BTC" true 3).stopEvent = true))) :=
  C8_worker_alive_amended "KRW-BTC" true 3 (mInit "KRW-BTC" true 3) Reach.refl
